import Mathlib

/-!
Shallow embedding of the `notify_push` push-notification gateway
(`src/storage_mapping.rs`, `src/config.rs`, `src/main.rs`) and proofs about it.

Conventions:
* Rust `Instant` is modelled as a `Nat` timestamp in seconds; `Duration::from_secs`
  is plain addition.
* The `DashMap<u32, CachedAccess>` cache is modelled as an association list
  `List (Nat × CachedAccess)`; `DashMap::get` is `List.lookup`, `DashMap::insert`
  is prepend-after-erase (replacement).
* The database is modelled as an explicit parameter of type
  `Except String (List UserStorageAccess)`: the response the pool would give
  to the (single) query issued during the call.
* `AtomicUsize` / the static `MAPPING_QUERY_COUNT` is a `Nat` field threaded
  through the state.
* Rust `&str` is `String`; `path.starts_with(root)` is byte-wise prefix and is
  modelled char-wise on `String.data` (equivalent on valid UTF-8).
-/

namespace NotifyPush

/-- Rust: `path.starts_with(pre)` — `pre` is a prefix of `path` (byte-wise). -/
def strStartsWith (path pre : String) : Bool :=
  pre.data.isPrefixOf path.data

/-- `UserStorageAccess { user: UserId, root: String }` (storage_mapping.rs:9-15). -/
structure UserStorageAccess where
  user : String
  root : String
deriving Repr, DecidableEq

/-- `CachedAccess { access: Vec<UserStorageAccess>, valid_till: Instant }`
(storage_mapping.rs:17-20). -/
structure CachedAccess where
  access : List UserStorageAccess
  validTill : Nat
deriving Repr, DecidableEq

/-- `CachedAccess::new` (storage_mapping.rs:23-28): `valid_till = now + 5 * 60` s. -/
def CachedAccess.new (access : List UserStorageAccess) (now : Nat) : CachedAccess :=
  { access := access, validTill := now + 5 * 60 }

/-- `CachedAccess::is_valid` (storage_mapping.rs:30-32), verbatim:
`self.valid_till < Instant::now()`. -/
def CachedAccess.isValid (c : CachedAccess) (now : Nat) : Bool :=
  decide (c.validTill < now)

/-- The mutable state of `StorageMapping` together with the process-wide
`MAPPING_QUERY_COUNT` counter (storage_mapping.rs:35-41). The SQL connection and
table prefix only shape the query text, which the `db` parameter abstracts. -/
structure StorageMappingState where
  cache : List (Nat × CachedAccess)
  queryCount : Nat
deriving Repr, DecidableEq

/-- `DashMap::insert`: replace any entry for `k` with `(k, v)`. -/
def cacheInsert (k : Nat) (v : CachedAccess) (c : List (Nat × CachedAccess)) :
    List (Nat × CachedAccess) :=
  (k, v) :: c.filter (fun p => p.1 ≠ k)

/-- `self.cache.get(&storage).and_then(|cached| if cached.is_valid() { Some(cached) } else { None })`
(storage_mapping.rs:60-66). -/
def cacheHit (st : StorageMappingState) (storage : Nat) (now : Nat) :
    Option CachedAccess :=
  (st.cache.lookup storage).bind
    (fun cached => if cached.isValid now then some cached else none)

/-- The prefix filter of `get_users_for_storage_path` (storage_mapping.rs:74-85):
`filter_map(|access| if path.starts_with(&access.root) { Some(access.user.clone()) } else { None })`. -/
def usersMatching (access : List UserStorageAccess) (path : String) : List String :=
  access.filterMap
    (fun access => if strStartsWith path access.root then some access.user else none)

/-- `StorageMapping::load_storage_mapping` (storage_mapping.rs:88-105): runs the
query (the `db` parameter); on success bumps `MAPPING_QUERY_COUNT` once; on
failure the wrapped error propagates and nothing changes. -/
def loadStorageMapping (st : StorageMappingState)
    (db : Except String (List UserStorageAccess)) :
    Except String (List UserStorageAccess) × StorageMappingState :=
  match db with
  | .ok users => (.ok users, { st with queryCount := st.queryCount + 1 })
  | .error e => (.error e, st)

/-- `StorageMapping::get_users_for_storage_path` (storage_mapping.rs:55-86).
On a miss the code inserts `CachedAccess::new(users)` and re-reads the entry it
just inserted (`self.cache.get(&storage).unwrap()`), whose `access` list is
exactly `users`. -/
def getUsersForStoragePath (st : StorageMappingState) (storage : Nat)
    (path : String) (now : Nat) (db : Except String (List UserStorageAccess)) :
    Except String (List String) × StorageMappingState :=
  match cacheHit st storage now with
  | some cached => (.ok (usersMatching cached.access path), st)
  | none =>
    match loadStorageMapping st db with
    | (.ok users, st') =>
      (.ok (usersMatching users path),
        { st' with cache := cacheInsert storage (CachedAccess.new users now) st'.cache })
    | (.error e, st') => (.error e, st')

/-! ## Configuration (`src/config.rs`) -/

/-- Rust: `s.ends_with(suf)`. -/
def strEndsWith (s suf : String) : Bool :=
  suf.data.isSuffixOf s.data

/-- The variants of `crate::error::ConfigError` that `Config::try_from` produces
(config.rs:139, 142, 170, 176). -/
inductive ConfigError where
  | socketPermissions (perm : String)
  | noNextcloud
  | noDatabase
deriving Repr, DecidableEq

/-- `TlsConfig { key, cert }` (config.rs:102-106); paths as strings. -/
structure TlsConfig where
  key : String
  cert : String
deriving Repr, DecidableEq

/-- `enum Bind { Tcp(SocketAddr), Unix(PathBuf, u32) }` (config.rs:110-116). -/
inductive Bind where
  | tcp (ip : String) (port : Nat)
  | unix (path : String) (permissions : Nat)
deriving Repr, DecidableEq

/-- `struct PartialConfig` (config.rs:209-227); connect options, addresses and
paths are kept as opaque strings. -/
structure PartialConfig where
  database : Option String
  databasePre : Option String
  redis : List String
  nextcloudUrl : Option String
  port : Option Nat
  metricsPort : Option Nat
  metricsSocket : Option String
  logLevel : Option String
  bind : Option String
  socket : Option String
  socketPermissions : Option String
  allowSelfSigned : Option Bool
  noAnsi : Option Bool
  tls : Option TlsConfig
  maxDebounceTime : Option Nat
  maxConnectionTime : Option Nat
deriving Repr, DecidableEq

/-- `struct Config` (config.rs:86-100). -/
structure Config where
  database : String
  databasePre : String
  redis : List String
  nextcloudUrl : String
  metricsBind : Option Bind
  logLevel : String
  bind : Bind
  allowSelfSigned : Bool
  noAnsi : Bool
  tls : Option TlsConfig
  maxDebounceTime : Nat
  maxConnectionTime : Nat
deriving Repr, DecidableEq

/-- `char::to_digit(8)`. -/
def octalDigit? (c : Char) : Option Nat :=
  if '0' ≤ c ∧ c ≤ '7' then some (c.toNat - '0'.toNat) else none

/-- `u32::from_str_radix(s, 8)`: an optional leading `'+'`, then at least one
octal digit, with each accumulation step checked against `u32` overflow
(a leading `'-'` fails the digit test, as it does for an unsigned target). -/
def parseOctalU32 (s : String) : Option Nat :=
  let cs := match s.data with
    | '+' :: rest => rest
    | cs => cs
  if cs.isEmpty then none
  else cs.foldlM
    (fun acc c => (octalDigit? c).bind
      (fun d => if acc * 8 + d < 2 ^ 32 then some (acc * 8 + d) else none))
    0

/-- The `socket_permissions` computation of `Config::try_from`
(config.rs:135-145), verbatim: the guard is
`perm.len() != 4 && !perm.starts_with('0')` (note the `&&`), `len` is the byte
length, and a `None` option defaults to `0o666`. -/
def socketPermissionsOf (permOpt : Option String) : Except ConfigError Nat :=
  match permOpt with
  | none => .ok 0o666
  | some perm =>
    if perm.utf8ByteSize ≠ 4 ∧ strStartsWith perm "0" = false then
      .error (.socketPermissions perm)
    else
      match parseOctalU32 perm with
      | some v => .ok v
      | none => .error (.socketPermissions perm)

/-- `impl TryFrom<PartialConfig> for Config` (config.rs:131-191), in evaluation
order: socket permissions first (`?` on the `transpose`), then the binds, then
the nextcloud URL (`NoNextcloud`, then the trailing-`/` normalisation), then
the database (`NoDatabase`), with the documented defaults for the rest. -/
def configTryFrom (config : PartialConfig) : Except ConfigError Config :=
  match socketPermissionsOf config.socketPermissions with
  | .error e => .error e
  | .ok socketPermissions =>
    let bind : Bind :=
      match config.socket with
      | some socket => .unix socket socketPermissions
      | none => .tcp (config.bind.getD "0.0.0.0") (config.port.getD 7867)
    let metricsBind : Option Bind :=
      match config.metricsSocket, config.metricsPort with
      | some socket, _ => some (.unix socket socketPermissions)
      | none, some port => some (.tcp (config.bind.getD "0.0.0.0") port)
      | none, none => none
    match config.nextcloudUrl with
    | none => .error .noNextcloud
    | some url =>
      let nextcloudUrl := if strEndsWith url "/" then url else url ++ "/"
      match config.database with
      | none => .error .noDatabase
      | some database =>
        .ok
          { database := database
            databasePre := config.databasePre.getD "oc_"
            redis := config.redis
            nextcloudUrl := nextcloudUrl
            metricsBind := metricsBind
            logLevel := config.logLevel.getD "warn"
            bind := bind
            allowSelfSigned := config.allowSelfSigned.getD false
            noAnsi := config.noAnsi.getD false
            tls := config.tls
            maxDebounceTime := config.maxDebounceTime.getD 15
            maxConnectionTime := config.maxConnectionTime.getD 0 }

/-- `PartialConfig::merge(self, fallback)` (config.rs:311-334): field-wise
`Option::or`, except `redis`, where a non-empty `self` list wins wholesale. -/
def PartialConfig.merge (self fallback : PartialConfig) : PartialConfig :=
  { database := self.database.or fallback.database
    databasePre := self.databasePre.or fallback.databasePre
    redis := if self.redis.isEmpty then fallback.redis else self.redis
    nextcloudUrl := self.nextcloudUrl.or fallback.nextcloudUrl
    port := self.port.or fallback.port
    metricsPort := self.metricsPort.or fallback.metricsPort
    metricsSocket := self.metricsSocket.or fallback.metricsSocket
    logLevel := self.logLevel.or fallback.logLevel
    bind := self.bind.or fallback.bind
    socket := self.socket.or fallback.socket
    socketPermissions := self.socketPermissions.or fallback.socketPermissions
    allowSelfSigned := self.allowSelfSigned.or fallback.allowSelfSigned
    noAnsi := self.noAnsi.or fallback.noAnsi
    tls := self.tls.or fallback.tls
    maxDebounceTime := self.maxDebounceTime.or fallback.maxDebounceTime
    maxConnectionTime := self.maxConnectionTime.or fallback.maxConnectionTime }

/-- `Config::from_opt` (config.rs:194-207): resolve the three sources with
command line over environment over configuration file, then `try_into`. The
environment and file readings (`from_env`, `from_file`) perform I/O and are
passed in as the partial configs they produced. -/
def configFromSources (fromOpt fromEnv fromConfig : PartialConfig) :
    Except ConfigError Config :=
  configTryFrom ((fromOpt.merge fromEnv).merge fromConfig)

/-- `PartialConfig::default()` (`#[derive(Default)]`, config.rs:209): every
option absent, the redis list empty. -/
def defaultPartialConfig : PartialConfig :=
  { database := none
    databasePre := none
    redis := []
    nextcloudUrl := none
    port := none
    metricsPort := none
    metricsSocket := none
    logLevel := none
    bind := none
    socket := none
    socketPermissions := none
    allowSelfSigned := none
    noAnsi := none
    tls := none
    maxDebounceTime := none
    maxConnectionTime := none }

/-- `r` resolves the option supplied by the sources `o` (highest precedence),
`e`, `f` (lowest): a source's value stands unless a higher-precedence source
also supplies the option. -/
def resolvedFrom {α : Type} (o e f r : Option α) : Prop :=
  (∀ v, o = some v → r = some v) ∧
  (o = none → ∀ v, e = some v → r = some v) ∧
  (o = none → e = none → r = f)

/-! ## Dispatcher and session handling (`src/main.rs`) -/

/-- The `Event` variants (main.rs:3, event.rs via its uses in `listen`); the
extra payload fields of `GroupUpdate`/`ShareCreate` beyond `user` are ignored
by the dispatcher (`GroupUpdate { user, .. }`). -/
inductive Event where
  | storageUpdate (storage : Nat) (path : String)
  | groupUpdate (user : String)
  | shareCreate (user : String)
  | testCookie (cookie : Nat)
deriving Repr, DecidableEq

/-- State touched by one iteration of `listen` (main.rs:166-225): the storage
mapping (cache + `MAPPING_QUERY_COUNT`), the chronological list of
`send_to_user(user, message)` calls issued, and the test-cookie register. -/
structure DispatchState where
  mapping : StorageMappingState
  sent : List (String × String)
  cookie : Nat
deriving Repr, DecidableEq

/-- One iteration of the `listen` event loop (main.rs:173-222). `event` is the
decoded bus item (`Err` = decode/bus error, logged and skipped); `db` is the
database response consumed if and only if a `StorageUpdate` misses the cache. -/
def handleEvent (st : DispatchState) (event : Except String Event) (now : Nat)
    (db : Except String (List UserStorageAccess)) : DispatchState :=
  match event with
  | .ok (.storageUpdate storage path) =>
    match getUsersForStoragePath st.mapping storage path now db with
    | (.ok users, m) =>
      { st with
        mapping := m
        sent := st.sent ++ users.map (fun user => (user, "notify_storage_update")) }
    | (.error _, m) => { st with mapping := m }
  | .ok (.groupUpdate user) =>
    { st with sent := st.sent ++ [(user, "notify_storage_update")] }
  | .ok (.shareCreate user) =>
    { st with sent := st.sent ++ [(user, "notify_storage_update")] }
  | .ok (.testCookie cookie) => { st with cookie := cookie }
  | .error _ => st

/-- The `mapping_test` endpoint handler (main.rs:81-90): call
`get_users_for_storage_path(storage_id, "")`, count the yielded users
(`unwrap_or(0)` on error) and render the count as decimal text. -/
def mappingTest (mapping : StorageMappingState) (storageId : Nat) (now : Nat)
    (db : Except String (List UserStorageAccess)) : String × StorageMappingState :=
  let r := getUsersForStoragePath mapping storageId "" now db
  (toString (match r.1 with
    | .ok users => users.length
    | .error _ => 0), r.2)

/-- One `rx.next()` observation during authentication: a frame (text or not,
with its text when it is one), a transport error, a closed stream, or the
1-second timeout elapsing. -/
inductive AuthRead where
  | frame (isText : Bool) (content : String)
  | sockError
  | disconnected
  | timedOut
deriving Repr, DecidableEq

/-- `read_socket_auth_message` (main.rs:138-145); for a frame the result also
carries whether `Message::to_str` would succeed. -/
def readSocketAuthMessage : AuthRead → Except String (Bool × String)
  | .frame isText content => .ok (isText, content)
  | .sockError => .error "Socket error during authentication"
  | .disconnected => .error "Client disconnected during authentication"
  | .timedOut => .error "Authentication timeout"

/-- `socket_auth` (main.rs:147-164): two reads, `to_str` on each
(`Invalid authentication message` on a non-text frame), then the credential
verifier: transport error propagated, `Ok(false)` is `Invalid credentials`,
`Ok(true)` yields the user id. -/
def socketAuth (r1 r2 : AuthRead)
    (verify : String → String → Except String Bool) : Except String String :=
  match readSocketAuthMessage r1 with
  | .error e => .error e
  | .ok (t1, username) =>
    if t1 = false then .error "Invalid authentication message"
    else
      match readSocketAuthMessage r2 with
      | .error e => .error e
      | .ok (t2, password) =>
        if t2 = false then .error "Invalid authentication message"
        else
          match verify username password with
          | .error e => .error e
          | .ok true => .ok username
          | .ok false => .error "Invalid credentials"

/-- Observable outcome of the handshake phase of `user_connected`: the text
frames pushed onto the outbound channel during that phase, and the user id
registered with `ActiveConnections`, if any. -/
structure SessionOutcome where
  sent : List String
  registered : Option String
deriving Repr, DecidableEq

/-- The handshake phase of `user_connected` (main.rs:101-122): on an auth
error `e` the handler sends the single frame `"err: " ++ e` and returns
without registering; on success it registers the user with
`connections.add` and enters the receive loop (whose frames are not part of
this phase). -/
def userConnected (r1 r2 : AuthRead)
    (verify : String → String → Except String Bool) : SessionOutcome :=
  match socketAuth r1 r2 verify with
  | .error e => { sent := ["err: " ++ e], registered := none }
  | .ok userId => { sent := [], registered := some userId }

/-! ## Helper lemmas -/

theorem strStartsWith_trans {p₁ p₂ r : String} (h₁ : strStartsWith p₂ r = true)
    (h₂ : strStartsWith p₁ p₂ = true) : strStartsWith p₁ r = true := by
  simp only [strStartsWith, List.isPrefixOf_iff_prefix] at *
  exact h₁.trans h₂

theorem mem_usersMatching {u : String} {l : List UserStorageAccess} {p : String} :
    u ∈ usersMatching l p ↔
      ∃ a ∈ l, strStartsWith p a.root = true ∧ a.user = u := by
  simp only [usersMatching, List.mem_filterMap]
  constructor
  · rintro ⟨a, ha, hfa⟩
    refine ⟨a, ha, ?_⟩
    by_cases h : strStartsWith p a.root = true
    · simp [h] at hfa
      exact ⟨h, hfa⟩
    · simp [h] at hfa
  · rintro ⟨a, ha, hmatch, hu⟩
    exact ⟨a, ha, by simp [hmatch, hu]⟩

theorem usersMatching_eq_filter_map (l : List UserStorageAccess) (p : String) :
    usersMatching l p =
      (l.filter (fun a => strStartsWith p a.root)).map UserStorageAccess.user := by
  induction l with
  | nil => rfl
  | cons a t ih =>
    by_cases h : strStartsWith p a.root = true
    · simp [usersMatching, List.filterMap_cons, List.filter_cons, h] at ih ⊢
      exact ih
    · simp only [Bool.not_eq_true] at h
      simp [usersMatching, List.filterMap_cons, List.filter_cons, h] at ih ⊢
      exact ih

/-! ## Claims -/

/-- C1: the spec says the cached entry is used exactly when it has not expired
(valid strictly before `valid_till`, expired from `valid_till` on), and that an
absent or expired entry triggers a database load installing
`valid_till = now + 300`. The code's `CachedAccess::is_valid`
(storage_mapping.rs:31) is `valid_till < now`, the exact inversion: at
`now = 5` an entry with `valid_till = 10` (not expired) is treated as a miss —
the database is queried (`MAPPING_QUERY_COUNT` goes to 1) and the entry is
overwritten — while at `now = 20` the expired entry is served stale without
any load (the database, here failing, is never consulted). -/
theorem c1_cache_validity_inverted :
    (getUsersForStoragePath ⟨[(1, ⟨[⟨"alice", "/"⟩], 10⟩)], 0⟩ 1 "/f" 5 (.ok []) =
        (.ok [], ⟨[(1, ⟨[], 305⟩)], 1⟩)) ∧
    (getUsersForStoragePath ⟨[(1, ⟨[⟨"alice", "/"⟩], 10⟩)], 0⟩ 1 "/f" 20
        (.error "db down") =
        (.ok ["alice"], ⟨[(1, ⟨[⟨"alice", "/"⟩], 10⟩)], 0⟩)) ∧
    (CachedAccess.isValid ⟨[⟨"alice", "/"⟩], 10⟩ 5 = false) ∧
    (CachedAccess.isValid ⟨[⟨"alice", "/"⟩], 10⟩ 20 = true) :=
  ⟨rfl, rfl, rfl, rfl⟩

/-- C2 (counterexample): the claim asserts `get(s, p₁) ⊆ get(s, p₂)` whenever
`p₁` has `p₂` as a prefix. Take the single access `(user := "u", root := "/a")`,
`p₁ := "/a"`, `p₂ := ""`: `p₁` has `p₂` as a prefix, yet `"u"` is returned for
`p₁` and not for `p₂` — the claimed inclusion fails. -/
theorem c2_subset_direction_counterexample :
    strStartsWith "/a" "" = true ∧
    "u" ∈ usersMatching [⟨"u", "/a"⟩] "/a" ∧
    "u" ∉ usersMatching [⟨"u", "/a"⟩] "" := by
  refine ⟨rfl, ?_, ?_⟩ <;> decide

/-- C2 (amended): the inclusion holds in the opposite direction: within a single
TTL window (one access list `l`), if `p₁` has `p₂` as a prefix then every user
returned for the *shorter* path `p₂` is also returned for `p₁`:
`get(s, p₂) ⊆ get(s, p₁)` — lengthening the path monotonically grows the
recipient set, since prefix-of-path is transitive. -/
theorem c2_prefix_monotone (l : List UserStorageAccess) (p₁ p₂ u : String)
    (hpre : strStartsWith p₁ p₂ = true) (hu : u ∈ usersMatching l p₂) :
    u ∈ usersMatching l p₁ := by
  rcases mem_usersMatching.mp hu with ⟨a, ha, hmatch, rfl⟩
  exact mem_usersMatching.mpr ⟨a, ha, strStartsWith_trans hmatch hpre, rfl⟩

/-- C2 (witness): instantiating the amended monotonicity at
`l = [("u", "/a")]`, `p₁ = "/ab"`, `p₂ = "/a"`. -/
theorem c2_prefix_monotone_witness :
    "u" ∈ usersMatching [⟨"u", "/a"⟩] "/ab" :=
  c2_prefix_monotone [⟨"u", "/a"⟩] "/ab" "/a" "u" (by decide) (by decide)

/-- C5: `get_users_for_storage_path` yields, in list order and preserving
duplicates, the `user` of every access whose `root` is a byte-wise prefix of
`path`: the yielded list is exactly the map of `user` over the prefix-filtered
sublist. Concretely, root `"/a"` matches path `"/ab"` (no path-segment
awareness), and a user mounted at two matching roots is yielded twice. -/
theorem c5_prefix_filter :
    (∀ (l : List UserStorageAccess) (p : String),
      usersMatching l p =
        (l.filter (fun a => strStartsWith p a.root)).map UserStorageAccess.user) ∧
    strStartsWith "/ab" "/a" = true ∧
    usersMatching [⟨"u", "/a"⟩, ⟨"u", "/ab"⟩] "/ab" = ["u", "u"] :=
  ⟨usersMatching_eq_filter_map, rfl, rfl⟩

/-- C6: handling a `GroupUpdate` or `ShareCreate` event appends exactly one
`send_to_user(user, "notify_storage_update")` call for the user named in the
event, and nothing else changes: the storage mapping — both the access cache
and the `MAPPING_QUERY_COUNT` counter — and the cookie register are untouched,
whatever the database would have answered. -/
theorem c6_group_share_direct_send (st : DispatchState) (user : String)
    (now : Nat) (db : Except String (List UserStorageAccess)) :
    handleEvent st (.ok (.groupUpdate user)) now db =
      { st with sent := st.sent ++ [(user, "notify_storage_update")] } ∧
    handleEvent st (.ok (.shareCreate user)) now db =
      { st with sent := st.sent ++ [(user, "notify_storage_update")] } ∧
    (handleEvent st (.ok (.groupUpdate user)) now db).mapping = st.mapping ∧
    (handleEvent st (.ok (.shareCreate user)) now db).mapping = st.mapping ∧
    (handleEvent st (.ok (.groupUpdate user)) now db).mapping.queryCount =
      st.mapping.queryCount :=
  ⟨rfl, rfl, rfl, rfl, rfl⟩

/-- C7: on a cache miss, a failing database load leaves the state — cache and
`MAPPING_QUERY_COUNT` alike — exactly as it was and returns the error (no
negative caching, so the next call retries); a successful load bumps the
counter by exactly one; a cache hit performs no load and leaves the state
unchanged, so the counter is incremented once per successful load and never
otherwise. -/
theorem c7_query_count_per_successful_load (st : StorageMappingState)
    (storage : Nat) (path : String) (now : Nat) :
    (∀ e, cacheHit st storage now = none →
      getUsersForStoragePath st storage path now (.error e) = (.error e, st)) ∧
    (∀ users, cacheHit st storage now = none →
      (getUsersForStoragePath st storage path now (.ok users)).2.queryCount =
          st.queryCount + 1 ∧
      (getUsersForStoragePath st storage path now (.ok users)).1 =
          .ok (usersMatching users path)) ∧
    (∀ c db, cacheHit st storage now = some c →
      getUsersForStoragePath st storage path now db =
        (.ok (usersMatching c.access path), st)) := by
  refine ⟨fun e h => ?_, fun users h => ?_, fun c db h => ?_⟩ <;>
    simp [getUsersForStoragePath, loadStorageMapping, h]

/-- C7 (witness): on the empty cache (a miss), a failing load returns the error
and the untouched state. -/
theorem c7_query_count_witness :
    getUsersForStoragePath ⟨[], 0⟩ 1 "/" 0 (.error "db down") =
      (.error "db down", ⟨[], 0⟩) :=
  (c7_query_count_per_successful_load ⟨[], 0⟩ 1 "/" 0).1 "db down" rfl

/-- C9: whenever the authentication handshake fails — timeout, transport error,
non-text frame, disconnection, verifier error or rejected credentials all
surface as `socket_auth` returning an error — the handler sends the peer
exactly one text frame `"err: " ++ message` and terminates without registering
anything with the connection registry. -/
theorem c9_auth_failure_err_frame (r1 r2 : AuthRead)
    (verify : String → String → Except String Bool) (e : String)
    (h : socketAuth r1 r2 verify = .error e) :
    userConnected r1 r2 verify = { sent := ["err: " ++ e], registered := none } := by
  simp [userConnected, h]

/-- C9 (witness): a first-read timeout produces the single frame
`"err: Authentication timeout"` and no registration. -/
theorem c9_auth_failure_witness :
    userConnected .timedOut .timedOut (fun _ _ => .ok true) =
      { sent := ["err: Authentication timeout"], registered := none } :=
  c9_auth_failure_err_frame .timedOut .timedOut (fun _ _ => .ok true)
    "Authentication timeout" rfl

theorem strStartsWith_empty_iff (r : String) : strStartsWith "" r = true ↔ r = "" := by
  simp only [strStartsWith, List.isPrefixOf_iff_prefix, List.prefix_nil]
  constructor
  · intro h
    exact String.ext h
  · rintro rfl
    rfl

theorem length_usersMatching_empty (l : List UserStorageAccess) :
    (usersMatching l "").length = l.countP (fun a => a.root == "") := by
  rw [usersMatching_eq_filter_map, List.length_map, ← List.countP_eq_length_filter]
  exact List.countP_congr (fun a _ => by
    rw [strStartsWith_empty_iff, beq_iff_eq])

theorem strEndsWith_append_slash (u : String) : strEndsWith (u ++ "/") "/" = true := by
  simp only [strEndsWith, List.isSuffixOf_iff_suffix, String.data_append]
  exact List.suffix_append u.data "/".data

/-- C3 (counterexample): the claim demands a configuration error for every
socket-permissions string without a leading `'0'`, but the code's guard is
`perm.len() != 4 && !perm.starts_with('0')`, so the 4-byte string `"7777"`
slips past it and is accepted as `0o7777 = 4095`. -/
theorem c3_socket_permissions_counterexample :
    socketPermissionsOf (some "7777") = .ok 4095 ∧
    strStartsWith "7777" "0" = false :=
  ⟨rfl, rfl⟩

/-- C3 (amended): an absent `socket_permissions` defaults to `0o666`; a supplied
string is accepted, with its base-8 value, exactly when it survives the code's
conjunctive guard (byte length 4 *or* leading `'0'`) and parses as a base-8
`u32`; only a string that both has byte length ≠ 4 *and* lacks a leading `'0'`
(or that fails the octal parse) is rejected with a configuration error. -/
theorem c3_socket_permissions_amended :
    socketPermissionsOf none = .ok 0o666 ∧
    (∀ s v, socketPermissionsOf (some s) = .ok v ↔
      ((s.utf8ByteSize = 4 ∨ strStartsWith s "0" = true) ∧
        parseOctalU32 s = some v)) ∧
    (∀ s, s.utf8ByteSize ≠ 4 → strStartsWith s "0" = false →
      socketPermissionsOf (some s) = .error (.socketPermissions s)) := by
  refine ⟨rfl, fun s v => ?_, fun s h4 h0 => ?_⟩
  · by_cases hg : s.utf8ByteSize ≠ 4 ∧ strStartsWith s "0" = false
    · simp only [socketPermissionsOf, if_pos hg]
      constructor
      · intro h
        exact absurd h (by simp)
      · rintro ⟨hor, -⟩
        rcases hor with h | h
        · exact absurd h hg.1
        · rw [hg.2] at h
          exact absurd h (by simp)
    · have hg' : s.utf8ByteSize = 4 ∨ strStartsWith s "0" = true := by
        rcases not_and_or.mp hg with h | h
        · exact Or.inl (not_not.mp h)
        · cases hb : strStartsWith s "0"
          · exact absurd hb h
          · exact Or.inr rfl
      simp only [socketPermissionsOf, if_neg hg]
      cases hp : parseOctalU32 s with
      | none => simp [hg']
      | some w => simp [hg']
  · simp only [socketPermissionsOf, if_pos (And.intro h4 h0)]

/-- C3 (witness): `"0666"` is accepted as `0o666 = 438`, while `"778"`
(3 bytes, no leading `'0'`) is rejected. -/
theorem c3_socket_permissions_amended_witness :
    socketPermissionsOf (some "0666") = .ok 438 ∧
    socketPermissionsOf (some "778") = .error (.socketPermissions "778") :=
  ⟨(c3_socket_permissions_amended.2.1 "0666" 438).mpr ⟨Or.inl rfl, rfl⟩,
    c3_socket_permissions_amended.2.2 "778" (by decide) rfl⟩

/-- C4 (counterexample): the claim says `mapping_test` renders the number of
access rows cached/loaded for the storage, but the handler queries with the
empty path, so a freshly loaded single row with root `"/a"` — which is not a
prefix of `""` — yields the reply `"0"`, not `"1"`. -/
theorem c4_mapping_test_counterexample :
    (mappingTest ⟨[], 0⟩ 1 0 (.ok [⟨"u", "/a"⟩])).1 = "0" ∧
    ([(⟨"u", "/a"⟩ : UserStorageAccess)]).length = 1 :=
  ⟨rfl, rfl⟩

/-- C4 (amended): `mapping_test` renders, as decimal text, the number of rows
*with empty root* in the cached or freshly loaded access list for the storage
(those are exactly the rows whose root is a prefix of the queried path `""`),
and `"0"` on a load error. -/
theorem c4_mapping_test_amended (mapping : StorageMappingState)
    (storageId now : Nat) :
    (∀ db c, cacheHit mapping storageId now = some c →
      (mappingTest mapping storageId now db).1 =
        toString (c.access.countP (fun a => a.root == ""))) ∧
    (∀ users, cacheHit mapping storageId now = none →
      (mappingTest mapping storageId now (.ok users)).1 =
        toString (users.countP (fun a => a.root == ""))) ∧
    (∀ e, cacheHit mapping storageId now = none →
      (mappingTest mapping storageId now (.error e)).1 = "0") := by
  refine ⟨fun db c h => ?_, fun users h => ?_, fun e h => ?_⟩
  · simp [mappingTest, getUsersForStoragePath, loadStorageMapping, h,
      length_usersMatching_empty]
  · simp [mappingTest, getUsersForStoragePath, loadStorageMapping, h,
      length_usersMatching_empty]
  · simp only [mappingTest, getUsersForStoragePath, loadStorageMapping, h]
    rfl

/-- C4 (witness): a fresh load of two rows, one with empty root, replies `"1"`. -/
theorem c4_mapping_test_amended_witness :
    (mappingTest ⟨[], 0⟩ 1 0 (.ok [⟨"u", "/a"⟩, ⟨"v", ""⟩])).1 = "1" :=
  ((c4_mapping_test_amended ⟨[], 0⟩ 1 0).2.1 [⟨"u", "/a"⟩, ⟨"v", ""⟩] rfl).trans rfl

theorem resolvedFrom_or {α : Type} (o e f : Option α) :
    resolvedFrom o e f ((o.or e).or f) := by
  cases o <;> cases e <;> simp [resolvedFrom, Option.or]

/-- C8: resolving the three configuration sources as `Config::from_opt` does —
`from_opt.merge(from_env).merge(from_config)` — gives every option the value
with precedence command line (`cli`) over environment (`env`) over
configuration file (`file`): a source's value is overridden only by a
higher-precedence source that also supplies the option, and for the redis URL
list a non-empty higher-precedence list replaces the whole lower-precedence
list. -/
theorem c8_merge_precedence (cli env file : PartialConfig) :
    resolvedFrom cli.database env.database file.database
      (((cli.merge env).merge file).database) ∧
    resolvedFrom cli.databasePre env.databasePre file.databasePre
      (((cli.merge env).merge file).databasePre) ∧
    resolvedFrom cli.nextcloudUrl env.nextcloudUrl file.nextcloudUrl
      (((cli.merge env).merge file).nextcloudUrl) ∧
    resolvedFrom cli.port env.port file.port
      (((cli.merge env).merge file).port) ∧
    resolvedFrom cli.metricsPort env.metricsPort file.metricsPort
      (((cli.merge env).merge file).metricsPort) ∧
    resolvedFrom cli.metricsSocket env.metricsSocket file.metricsSocket
      (((cli.merge env).merge file).metricsSocket) ∧
    resolvedFrom cli.logLevel env.logLevel file.logLevel
      (((cli.merge env).merge file).logLevel) ∧
    resolvedFrom cli.bind env.bind file.bind
      (((cli.merge env).merge file).bind) ∧
    resolvedFrom cli.socket env.socket file.socket
      (((cli.merge env).merge file).socket) ∧
    resolvedFrom cli.socketPermissions env.socketPermissions file.socketPermissions
      (((cli.merge env).merge file).socketPermissions) ∧
    resolvedFrom cli.allowSelfSigned env.allowSelfSigned file.allowSelfSigned
      (((cli.merge env).merge file).allowSelfSigned) ∧
    resolvedFrom cli.noAnsi env.noAnsi file.noAnsi
      (((cli.merge env).merge file).noAnsi) ∧
    resolvedFrom cli.tls env.tls file.tls
      (((cli.merge env).merge file).tls) ∧
    resolvedFrom cli.maxDebounceTime env.maxDebounceTime file.maxDebounceTime
      (((cli.merge env).merge file).maxDebounceTime) ∧
    resolvedFrom cli.maxConnectionTime env.maxConnectionTime file.maxConnectionTime
      (((cli.merge env).merge file).maxConnectionTime) ∧
    (cli.redis ≠ [] → ((cli.merge env).merge file).redis = cli.redis) ∧
    (cli.redis = [] → env.redis ≠ [] →
      ((cli.merge env).merge file).redis = env.redis) ∧
    (cli.redis = [] → env.redis = [] →
      ((cli.merge env).merge file).redis = file.redis) := by
  refine ⟨resolvedFrom_or _ _ _, resolvedFrom_or _ _ _, resolvedFrom_or _ _ _,
    resolvedFrom_or _ _ _, resolvedFrom_or _ _ _, resolvedFrom_or _ _ _,
    resolvedFrom_or _ _ _, resolvedFrom_or _ _ _, resolvedFrom_or _ _ _,
    resolvedFrom_or _ _ _, resolvedFrom_or _ _ _, resolvedFrom_or _ _ _,
    resolvedFrom_or _ _ _, resolvedFrom_or _ _ _, resolvedFrom_or _ _ _,
    fun h => ?_, fun h he => ?_, fun h he => ?_⟩
  · have h1 : cli.redis.isEmpty = false := by
      cases hb : cli.redis.isEmpty
      · rfl
      · exact absurd (List.isEmpty_iff.mp hb) h
    simp [PartialConfig.merge, h1]
  · have h2 : env.redis.isEmpty = false := by
      cases hb : env.redis.isEmpty
      · rfl
      · exact absurd (List.isEmpty_iff.mp hb) he
    simp [PartialConfig.merge, h, h2]
  · simp [PartialConfig.merge, h, he]

/-- C8 (witness): with the nextcloud URL supplied by all three sources the
command-line value wins, and with the redis list supplied only by environment
and file the environment list wins wholesale. -/
theorem c8_merge_precedence_witness :
    ((({ defaultPartialConfig with nextcloudUrl := some "cli" } : PartialConfig).merge
        { defaultPartialConfig with nextcloudUrl := some "env" }).merge
        { defaultPartialConfig with nextcloudUrl := some "file" }).nextcloudUrl =
      some "cli" ∧
    ((defaultPartialConfig.merge
        { defaultPartialConfig with redis := ["redis://env"] }).merge
        { defaultPartialConfig with redis := ["redis://file"] }).redis =
      ["redis://env"] := by
  obtain ⟨-, -, hnc, -, -, -, -, -, -, -, -, -, -, -, -, -, hr2, -⟩ :=
    c8_merge_precedence { defaultPartialConfig with nextcloudUrl := some "cli" }
      { defaultPartialConfig with nextcloudUrl := some "env" }
      { defaultPartialConfig with nextcloudUrl := some "file" }
  obtain ⟨-, -, -, -, -, -, -, -, -, -, -, -, -, -, -, -, hr2', -⟩ :=
    c8_merge_precedence defaultPartialConfig
      { defaultPartialConfig with redis := ["redis://env"] }
      { defaultPartialConfig with redis := ["redis://file"] }
  exact ⟨hnc.1 "cli" rfl, hr2' rfl (by simp)⟩

/-- C10 (counterexample): the claim says missing nextcloud URL always fails
with `NoNextcloud`, but `Config::try_from` evaluates the socket permissions
first: with no nextcloud URL *and* the bad permission string `"z"`,
construction fails with `SocketPermissions`, not `NoNextcloud`. -/
theorem c10_no_nextcloud_counterexample :
    configTryFrom { defaultPartialConfig with socketPermissions := some "z" } =
      .error (.socketPermissions "z") ∧
    ({ defaultPartialConfig with socketPermissions := some "z" } :
      PartialConfig).nextcloudUrl = none :=
  ⟨rfl, rfl⟩

/-- C10 (amended): when the socket-permissions value is accepted (in particular
when it is absent) and no source supplies a nextcloud URL, construction fails
with `NoNextcloud`; whenever construction succeeds the resolved
`nextcloud_url` ends with `'/'`, and it equals the supplied URL exactly when
that URL already ended with `'/'`, with a single `'/'` appended otherwise. -/
theorem c10_nextcloud_url_normalised (p : PartialConfig) :
    (∀ v, socketPermissionsOf p.socketPermissions = .ok v →
      p.nextcloudUrl = none → configTryFrom p = .error .noNextcloud) ∧
    (∀ c, configTryFrom p = .ok c → strEndsWith c.nextcloudUrl "/" = true) ∧
    (∀ c u, configTryFrom p = .ok c → p.nextcloudUrl = some u →
      c.nextcloudUrl = if strEndsWith u "/" then u else u ++ "/") := by
  refine ⟨fun v hperm hurl => ?_, fun c hc => ?_, fun c u hc hu => ?_⟩
  · simp [configTryFrom, hperm, hurl]
  · rcases hperm : socketPermissionsOf p.socketPermissions with e | vperm
    · simp [configTryFrom, hperm] at hc
    · rcases hurl : p.nextcloudUrl with _ | url
      · simp [configTryFrom, hperm, hurl] at hc
      · rcases hdb : p.database with _ | dbs
        · simp [configTryFrom, hperm, hurl, hdb] at hc
        · simp only [configTryFrom, hperm, hurl, hdb] at hc
          rw [Except.ok.injEq] at hc
          subst hc
          by_cases hslash : strEndsWith url "/" = true
          · simp [hslash]
          · simp only [Bool.not_eq_true] at hslash
            simpa [hslash] using strEndsWith_append_slash url
  · rcases hperm : socketPermissionsOf p.socketPermissions with e | vperm
    · simp [configTryFrom, hperm] at hc
    · rcases hdb : p.database with _ | dbs
      · simp [configTryFrom, hperm, hu, hdb] at hc
      · simp only [configTryFrom, hperm, hu, hdb] at hc
        rw [Except.ok.injEq] at hc
        subst hc
        simp

/-- C10 (witness): the all-absent partial config fails with `NoNextcloud`, and
supplying `"http://nc"` (with a database, so construction succeeds) resolves
to `"http://nc/"`. -/
theorem c10_nextcloud_url_witness :
    configTryFrom defaultPartialConfig = .error .noNextcloud ∧
    ({ database := "db", databasePre := "oc_", redis := [],
       nextcloudUrl := "http://nc/", metricsBind := none, logLevel := "warn",
       bind := .tcp "0.0.0.0" 7867, allowSelfSigned := false, noAnsi := false,
       tls := none, maxDebounceTime := 15, maxConnectionTime := 0 } :
      Config).nextcloudUrl = "http://nc/" :=
  ⟨(c10_nextcloud_url_normalised defaultPartialConfig).1 0o666 rfl rfl,
    ((c10_nextcloud_url_normalised
        { defaultPartialConfig with
          nextcloudUrl := some "http://nc", database := some "db" }).2.2
      _ "http://nc" rfl rfl).trans rfl⟩

end NotifyPush
